import Mathlib

/-!
Verification of the process-isolated transcription core of the stt-microservice
repository, as a shallow embedding in Lean 4.

The embedding follows the source files:
  * `src/service/stt/process_worker.py`  — worker entry point `transcribe_in_process`
  * `src/service/stt/service.py`         — `_sync_transcribe_impl` (its `finally` block)
  * `src/service/stt/process_service.py` — coordinator `ProcessIsolatedTranscriptionService`
  * `src/core/process_metrics.py`        — `ProcessPoolMonitor`
  * `src/core/memory_collector.py`       — metrics sampler loop

Conventions of the embedding:
  * Python exceptions become `Except` values; a handler that catches an
    exception turns an `.error` into an `.ok`.
  * Python floats are modelled with exact rationals (`ℚ`); loop "elapsed"
    accumulators that step by 0.1 s / 0.5 s are tracked in exact tenths /
    halves of a second as naturals.
  * The opaque Azure recognition call is a parameter: its observable outcome
    at the worker boundary (a result payload, a `TimeoutError`, or any other
    `Exception` with its type name / message / traceback text).
  * The filesystem state relevant to the claims is one bit: whether the
    temporary input audio file still exists.
-/

namespace STT

/-- One transcription segment, as the plain serializable dictionary the worker
ships across the process boundary (`process_worker.py` lines 117-136). -/
structure SegmentDict where
  text : String
  start_time : ℚ
  end_time : ℚ
  confidence : ℚ
  speaker_id : Option String
  language : Option String
deriving Repr, DecidableEq

/-- The payload a successful `_sync_transcribe_impl` call produces and the
`data` dictionary of a successful worker result (`service.py` lines 226-231,
`process_worker.py` lines 148-153): the worker's data payload carries exactly
these four keys. -/
structure JobData where
  segments : List SegmentDict
  full_text : String
  detected_language : String
  speaker_count : Option Nat
deriving Repr, DecidableEq

/-- Observable outcome of the opaque transcription call
(`_sync_transcribe_impl`) as seen by `transcribe_in_process`: it either
returns a payload, raises a `TimeoutError` (in particular the SIGALRM
handler installed by `_setup_signal_handlers` raises one when the inner
deadline fires), or raises some other `Exception` carrying a type name,
message and traceback text. -/
inductive ImplOutcome where
  | ok (result : JobData)
  | timeoutErr (msg trace : String)
  | exc (typeName msg trace : String)
deriving Repr, DecidableEq

/-- Python exceptions that can be in flight inside the worker's `try` block:
`TimeoutError`, or any other `Exception` (the two `except` clauses of
`transcribe_in_process`). -/
inductive PyExc where
  | timeoutError (msg trace : String)
  | otherExc (typeName msg trace : String)
deriving Repr, DecidableEq

/-- The dictionary returned by `transcribe_in_process`
(`process_worker.py` lines 146-179): key `success`, and optionally the keys
`data`, `error`, `error_type`, `traceback` (field `tb` here). A missing
dictionary key is `none`. -/
structure JobResult where
  success : Bool
  data : Option JobData
  error : Option String
  error_type : Option String
  tb : Option String
deriving Repr, DecidableEq

/-- Filesystem state the claims care about: whether the temporary input
audio file currently exists. -/
structure FsState where
  fileExists : Bool
deriving Repr, DecidableEq

/-- Outcome of an `os.unlink` / `Path.unlink` attempt on an existing file:
success, or an exception with a message. -/
inductive UnlinkBehavior where
  | ok
  | raises (msg : String)
deriving Repr, DecidableEq

/-- The temp-file cleanup in `_sync_transcribe_impl`'s `finally` block
(`service.py` lines 233-240): if the file exists it is unlinked; an
exception from the unlink is caught and logged as a warning (second
component `true`), never re-raised. Runs on every exit path of the impl. -/
def implFinallyCleanup (fs : FsState) (u : UnlinkBehavior) : FsState × Bool :=
  if fs.fileExists then
    match u with
    | .ok => (⟨false⟩, false)
    | .raises _ => (fs, true)
  else (fs, false)

/-- The serialization step of `transcribe_in_process` (lines 117-136):
each segment object is converted field by field to a plain dictionary
(`model_dump` on the Pydantic model); on our record model this is the
identity copy of the six fields. -/
def serializeSegment (seg : SegmentDict) : SegmentDict :=
  { text := seg.text
    start_time := seg.start_time
    end_time := seg.end_time
    confidence := seg.confidence
    speaker_id := seg.speaker_id
    language := seg.language }

/-- The `try` block of `transcribe_in_process` (lines 98-154): call the
impl, serialize the segments, cancel the alarm, return the success
dictionary; an exception raised by the impl is in flight (`.error`). -/
def tryBody (o : ImplOutcome) : Except PyExc JobResult :=
  match o with
  | .ok r =>
      .ok { success := true
            data := some { segments := r.segments.map serializeSegment
                           full_text := r.full_text
                           detected_language := r.detected_language
                           speaker_count := r.speaker_count }
            error := none
            error_type := none
            tb := none }
  | .timeoutErr m t => .error (.timeoutError m t)
  | .exc ty m t => .error (.otherExc ty m t)

/-- `except TimeoutError as e:` (lines 156-166): converts an in-flight
`TimeoutError` into the failure dictionary with `error_type` the literal
string `"TimeoutError"`; any other state passes through. -/
def handleTimeout (r : Except PyExc JobResult) : Except PyExc JobResult :=
  match r with
  | .error (.timeoutError m t) =>
      .ok { success := false, data := none
            error := some m, error_type := some "TimeoutError", tb := some t }
  | x => x

/-- `except Exception as e:` (lines 168-179): converts any other in-flight
exception into the failure dictionary with `error_type = type(e).__name__`. -/
def handleException (r : Except PyExc JobResult) : Except PyExc JobResult :=
  match r with
  | .error (.otherExc ty m t) =>
      .ok { success := false, data := none
            error := some m, error_type := some ty, tb := some t }
  | x => x

/-- Everything observable about one run of the worker entry point:
the result as the coordinator sees it (`.error` would mean an exception
propagated past the function's boundary), the filesystem state on exit,
and whether a failed unlink was logged as a warning. -/
structure WorkerRun where
  result : Except PyExc JobResult
  fs : FsState
  warnedUnlink : Bool
deriving Repr

/-- `transcribe_in_process` (`process_worker.py` lines 41-185): runs the
opaque impl under the installed alarm, with the impl's own `finally`
performing the temp-file cleanup on every path (success, `TimeoutError`,
other exception), then the worker's `except TimeoutError` /
`except Exception` clauses convert any in-flight exception into a failure
dictionary. `o` is the opaque call's outcome, `fs` the filesystem state on
entry, `u` the behaviour of the unlink syscall. -/
def transcribe_in_process (o : ImplOutcome) (fs : FsState) (u : UnlinkBehavior) :
    WorkerRun :=
  let cleanup := implFinallyCleanup fs u
  { result := handleException (handleTimeout (tryBody o))
    fs := cleanup.1
    warnedUnlink := cleanup.2 }

/-- The message of the `TimeoutError` raised by the SIGALRM handler
installed by `_setup_signal_handlers` (`process_worker.py` line 34). -/
def timeoutHandlerMessage (timeout : Nat) : String :=
  "Transcription exceeded timeout of " ++ toString timeout ++ " seconds"

/-- The opaque call's outcome when the inner deadline fires: the alarm
handler raises `TimeoutError` with its fixed message into the executing
call stack (`trace` is the runtime-formatted traceback text). -/
def alarmFires (timeout : Nat) (trace : String) : ImplOutcome :=
  .timeoutErr (timeoutHandlerMessage timeout) trace

/-! ### Coordinator: `ProcessIsolatedTranscriptionService.process_audio`
(`process_service.py` lines 74-257). -/

/-- The public transcription response (`models.py` lines 41-79), restricted
to the fields the coordinator computes (the timestamp is an external clock
read and is omitted). -/
structure TranscriptionResponse where
  original_text : String
  original_language : String
  translated_text : String
  segments : List SegmentDict
  speaker_count : Option Nat
  audio_duration_seconds : ℚ
  processing_time_seconds : ℚ
  transcription_time_seconds : ℚ
  translation_time_seconds : ℚ
  confidence_average : ℚ
deriving Repr, DecidableEq

/-- Exceptions in flight inside `process_audio`'s `try` block: the
`multiprocessing.TimeoutError` the poll loop raises on outer timeout, an
`HTTPException` raised by the failure branches, or any other `Exception`
(message only). -/
inductive TryExc where
  | mpTimeout (msg : String)
  | httpExc (status : Nat) (detail : String)
  | otherExc (msg : String)
deriving Repr, DecidableEq

/-- What `process_audio` surfaces to its caller on failure: an
`HTTPException` with status code and detail, or the `AudioFormatError`
raised before the `try` block when the input file does not exist. -/
inductive HttpError where
  | httpException (status : Nat) (detail : String)
  | audioFormatError (msg : String)
deriving Repr, DecidableEq

/-- The poll loop of `process_audio` (lines 146-158), with `elapsed`
tracked in exact tenths of a second: starting from elapsed count `k` with
`fuel` remaining tenths before `elapsed < timeout_seconds` fails, return
`some k` when `result_async.ready()` first answers true (the loop `break`s
and `get`s the result), `none` when the window closes (the loop's `else`
raises `multiprocessing.TimeoutError`). `ready j` is the readiness of the
result future at the poll performed after `j` sleeps. -/
def pollLoop (ready : Nat → Bool) : Nat → Nat → Option Nat
  | 0, _ => none
  | fuel + 1, k => if ready k then some k else pollLoop ready fuel (k + 1)

/-- Number of executions of the poll-loop body (each body execution checks
readiness once and, when not ready, sleeps 100 ms). -/
def pollIterations (ready : Nat → Bool) : Nat → Nat → Nat
  | 0, _ => 0
  | fuel + 1, k => if ready k then 1 else 1 + pollIterations ready fuel (k + 1)

/-- Maximum of a nonempty list via its head (Python's `max(...)` over the
generator, reached only when `segments` is nonempty). -/
def listMax : List ℚ → ℚ
  | [] => 0
  | x :: xs => xs.foldl max x

/-- Reconstruction of the response from a successful worker payload
(`process_service.py` lines 184-213): segments are rebuilt from their
dictionaries, audio duration is the max segment end time (0 when no
segments), confidence the guarded average, and the timing fields read
`data.get("transcription_time", 0.0)` / `data.get("translation_time", 0.0)`
— keys the worker's payload never carries, so both defaults apply and
`processing_time` is their sum. `original_text` and `translated_text` are
both set from `data["full_text"]`. -/
def buildResponse (data : JobData) : TranscriptionResponse :=
  let segments := data.segments.map serializeSegment
  let audio_duration : ℚ :=
    if segments.isEmpty then 0 else listMax (segments.map (·.end_time))
  let avg_confidence : ℚ :=
    if segments.isEmpty then 0
    else (segments.map (·.confidence)).sum / (segments.length : ℚ)
  let transcription_time : ℚ := 0
  let translation_time : ℚ := 0
  { original_text := data.full_text
    original_language := data.detected_language
    translated_text := data.full_text
    segments := segments
    speaker_count := data.speaker_count
    audio_duration_seconds := audio_duration
    processing_time_seconds := transcription_time + translation_time
    transcription_time_seconds := transcription_time
    translation_time_seconds := translation_time
    confidence_average := avg_confidence }

/-- Stand-in for the message of the `KeyError` Python would raise on
`result["data"]` if a success dictionary lacked the `data` key (the worker
never produces one; see `jobresult_tagged_union`). -/
def keyErrorData : String := "KeyError"

/-- The `try` block of `process_audio` (lines 128-220): submit, poll with
window `timeout + 10` seconds at 100 ms (so `10 * (timeout + 10)` tenths),
raise `multiprocessing.TimeoutError` when the window closes, otherwise
branch on the worker dictionary: a failure with
`error_type == "TimeoutError"` raises HTTP 504, any other failure HTTP 500,
a success builds the response. `jr` is the dictionary `result_async.get`
delivers once ready. -/
def process_audio_try (timeout : Nat) (ready : Nat → Bool) (jr : JobResult) :
    Except TryExc TranscriptionResponse :=
  match pollLoop ready (10 * (timeout + 10)) 0 with
  | none =>
      .error (.mpTimeout
        ("Transcription timeout after " ++ toString (timeout + 10) ++ "s"))
  | some _ =>
      if jr.success then
        match jr.data with
        | some d => .ok (buildResponse d)
        | none => .error (.otherExc keyErrorData)
      else
        let error_type := jr.error_type.getD "Unknown"
        let error_msg := jr.error.getD "Unknown error"
        if error_type = "TimeoutError" then
          .error (.httpExc 504 ("Transcription timeout: " ++ error_msg))
        else
          .error (.httpExc 500 ("Transcription failed: " ++ error_msg))

/-- `process_audio` (lines 74-257), excluding the `finally` cleanup which is
modelled separately by `callerCleanup`: the existence check before the
`try` raises `AudioFormatError` (uncaught), then the `except` clauses map
the in-flight exception — `multiprocessing.TimeoutError` to HTTP 504 with
detail built from `self.timeout`, `HTTPException` re-raised as-is, any
other exception to HTTP 500. -/
def process_audio (timeout : Nat) (fileExists : Bool) (ready : Nat → Bool)
    (jr : JobResult) : Except HttpError TranscriptionResponse :=
  if fileExists = false then
    .error (.audioFormatError "Audio file not found")
  else
    match process_audio_try timeout ready jr with
    | .ok r => .ok r
    | .error (.mpTimeout _) =>
        .error (.httpException 504
          ("Transcription timeout after " ++ toString timeout ++ "s"))
    | .error (.httpExc s d) => .error (.httpException s d)
    | .error (.otherExc m) =>
        .error (.httpException 500 ("Internal server error: " ++ m))

/-- The `finally` block of `process_audio` (lines 249-257): a best-effort
`Path(audio_file_path).unlink(missing_ok=True)` — a no-op without error
when the file is already gone — with any exception caught and logged as a
warning (second component `true`). -/
def callerCleanup (fs : FsState) (u : UnlinkBehavior) : FsState × Bool :=
  if fs.fileExists then
    match u with
    | .ok => (⟨false⟩, false)
    | .raises _ => (fs, true)
  else (fs, false)

/-! ### Resource monitor: `ProcessPoolMonitor`
(`process_metrics.py` lines 17-98). -/

/-- The psutil exceptions the monitor handles: a process vanishing between
enumeration and query, or the OS denying access. -/
inductive PsErr where
  | noSuchProcess
  | accessDenied
deriving Repr, DecidableEq

/-- One child process in the OS process table: whether it is still running
at enumeration time, and the outcome of querying its resident memory
(`memory_info().rss`) during the summation loop — `.error` models the
worker exiting (or access being denied) mid-iteration. -/
structure ChildProc where
  running : Bool
  rss : Except PsErr Nat
deriving Repr

/-- `ProcessPoolMonitor.get_worker_processes` (lines 29-44): enumerate the
parent's direct children and keep those still running; if the enumeration
itself raises it is caught, logged, and the empty list returned. -/
def get_worker_processes (enumChildren : Except PsErr (List ChildProc)) :
    List ChildProc :=
  match enumChildren with
  | .ok cs => cs.filter (·.running)
  | .error _ => []

/-- The dictionary returned by `get_aggregate_memory_usage`
(lines 82-98). The average is a Python true division, hence a rational. -/
structure MemSnapshot where
  total_rss_bytes : Nat
  parent_rss_bytes : Nat
  workers_rss_bytes : Nat
  worker_count : Nat
  per_worker_avg_bytes : ℚ
deriving Repr, DecidableEq

/-- The all-zero snapshot returned from the `except` branch (lines 92-98). -/
def zeroSnapshot : MemSnapshot :=
  { total_rss_bytes := 0
    parent_rss_bytes := 0
    workers_rss_bytes := 0
    worker_count := 0
    per_worker_avg_bytes := 0 }

/-- Sum of the resident sizes of the workers whose `memory_info` query
succeeds; a worker raising `NoSuchProcess`/`AccessDenied` is skipped by the
`continue` (lines 70-77). -/
def sumWorkerRss (workers : List ChildProc) : Nat :=
  workers.foldl
    (fun acc w => match w.rss with | .ok r => acc + r | .error _ => acc) 0

/-- `ProcessPoolMonitor.get_aggregate_memory_usage` (lines 46-98): read the
parent's RSS, enumerate live workers, sum their RSS skipping those that
exit mid-iteration, divide for the average only when `worker_count > 0`;
if the parent query itself raises, return the all-zero snapshot. The
function's codomain is a plain snapshot: it never propagates an exception. -/
def get_aggregate_memory_usage (parentRss : Except PsErr Nat)
    (enumChildren : Except PsErr (List ChildProc)) : MemSnapshot :=
  match parentRss with
  | .error _ => zeroSnapshot
  | .ok prss =>
      let workers := get_worker_processes enumChildren
      let worker_count := workers.length
      let workers_rss := sumWorkerRss workers
      { total_rss_bytes := prss + workers_rss
        parent_rss_bytes := prss
        workers_rss_bytes := workers_rss
        worker_count := worker_count
        per_worker_avg_bytes :=
          if worker_count > 0 then (workers_rss : ℚ) / (worker_count : ℚ)
          else 0 }

/-! ### Idle detection: `ProcessIsolatedTranscriptionService.is_pool_idle`
(`process_service.py` lines 275-329). -/

/-- Outcome of one runtime query inside `is_pool_idle`: a value, an
exception of a kind the code catches locally (`OSError`/`AttributeError`
for the channel polls, `NoSuchProcess`/`AccessDenied` for the CPU samples),
or any other exception, which escapes to the outer `except Exception`. -/
inductive QueryRes (α : Type) where
  | ok (a : α)
  | expectedErr
  | unexpectedErr
deriving Repr, DecidableEq

/-- Check 5 of `is_pool_idle` (lines 317-324): sample each worker's CPU;
more than 1.0 % means working (return false), an expected psutil error is
skipped with `continue`, anything else aborts to the outer handler (which
returns false). Returns true only when the scan finishes cleanly. -/
def cpuScan : List (QueryRes ℚ) → Bool
  | [] => true
  | .ok c :: rest => if c > 1 then false else cpuScan rest
  | .expectedErr :: rest => cpuScan rest
  | .unexpectedErr :: _ => false

/-- `is_pool_idle` (lines 275-329). Inputs are the five introspected
observations: the size of `pool._cache`, whether `pool._taskqueue` is
empty, the two channel polls (`_inqueue._reader.poll()` /
`_outqueue._reader.poll()`, whose value `true` means bytes are in transit),
and the per-worker CPU samples. An `.unexpectedErr` anywhere reaches the
outer `except Exception` and yields false ("assume busy on error"). -/
def is_pool_idle (cacheSize : Nat) (taskqueueEmpty : Bool)
    (inqueuePoll outqueuePoll : QueryRes Bool) (cpus : List (QueryRes ℚ)) :
    Bool :=
  if cacheSize > 0 then false
  else if taskqueueEmpty = false then false
  else
    match inqueuePoll with
    | .ok true => false
    | .unexpectedErr => false
    | _ =>
        match outqueuePoll with
        | .ok true => false
        | .unexpectedErr => false
        | _ => cpuScan cpus

/-! ### Shutdown: `ProcessIsolatedTranscriptionService.shutdown`
(`process_service.py` lines 471-519). -/

/-- How one call to `shutdown` ends: all outstanding work drained within
the window and the pool joined (`graceful`); the drain window closed and
the workers were terminated and reaped (`forced`); an exception during
shutdown was caught and the pool terminated from the handler
(`forcedAfterError`); or even that termination raised and was only logged
(`terminateFailed`). Every constructor is a return to the caller. -/
inductive ShutdownOutcome where
  | graceful
  | forced
  | forcedAfterError
  | terminateFailed
deriving Repr, DecidableEq

/-- The drain loop of `shutdown` (lines 492-499), with elapsed time in
exact halves of a second: from check index `k` with `fuel` remaining
half-seconds before `time.time() - start_time < timeout` fails, return
`some k` at the first check finding `pool._cache` empty (the loop breaks),
`none` when the deadline is exceeded (the loop's `else` force-terminates).
`cacheEmpty j` is the emptiness of the cache at the check after `j`
sleeps. -/
def drainLoop (cacheEmpty : Nat → Bool) : Nat → Nat → Option Nat
  | 0, _ => none
  | fuel + 1, k => if cacheEmpty k then some k else drainLoop cacheEmpty fuel (k + 1)

/-- Number of executions of the drain-loop body (each body execution checks
the cache once and, when work is still pending, sleeps 0.5 s). -/
def drainIterations (cacheEmpty : Nat → Bool) : Nat → Nat → Nat
  | 0, _ => 0
  | fuel + 1, k => if cacheEmpty k then 1 else 1 + drainIterations cacheEmpty fuel (k + 1)

/-- `shutdown` (lines 471-519): `pool.close()` stops intake, then the drain
loop polls the pending-work cache every 0.5 s for at most `timeout`
seconds (`2 * timeout` half-second slots); on drain the pool is joined, on
deadline it is terminated and joined; an exception anywhere in the `try`
(modelled on the `close()` call, `closeRaises`) falls to the handler,
which terminates and joins inside a nested `try` whose own failure
(`terminateRaises`) is only logged. Every path returns an outcome. -/
def shutdown (timeout : Nat) (closeRaises : Bool) (cacheEmpty : Nat → Bool)
    (terminateRaises : Bool) : ShutdownOutcome :=
  if closeRaises then
    if terminateRaises then .terminateFailed else .forcedAfterError
  else
    match drainLoop cacheEmpty (2 * timeout) 0 with
    | some _ => .graceful
    | none => .forced

/-! ### Metrics sampler: `collect_process_memory_metrics`
(`memory_collector.py` lines 47-76). -/

/-- Outcome of the collection attempt inside one iteration's `try` block:
it completes, the task is cancelled (`asyncio.CancelledError` raised at an
await point), or some other exception is raised. -/
inductive CollectOutcome where
  | ok
  | raisesCancelled
  | raisesExc (msg : String)
deriving Repr, DecidableEq

/-- How one iteration of the sampler loop ends: proceed to the next
interval, exit because the cooperative cancellation signal escaped, or —
never produced by the code — terminate the loop with an ordinary
exception. -/
inductive IterResult where
  | next
  | cancelled
  | errored (msg : String)
deriving Repr, DecidableEq

/-- One iteration of the `while True` body of
`collect_process_memory_metrics` (lines 47-76): when the process service
has not been created yet (`serviceExists = false`) the `try` body skips
collection; a `CancelledError` raised during collection is re-raised
(lines 68-70); any other exception is caught and logged and the loop
continues (lines 71-73); the trailing `await asyncio.sleep(15)` sits
outside the `try`, so a cancellation arriving there (`cancelDuringSleep`)
also exits the loop. -/
def collect_process_memory_metrics_iteration (serviceExists : Bool)
    (collection : CollectOutcome) (cancelDuringSleep : Bool) : IterResult :=
  let afterTry : IterResult :=
    if serviceExists then
      match collection with
      | .ok => .next
      | .raisesCancelled => .cancelled
      | .raisesExc _ => .next
    else .next
  match afterTry with
  | .cancelled => .cancelled
  | .errored m => .errored m
  | .next => if cancelDuringSleep then .cancelled else .next

/-! ### Concrete sample values, used by the witness theorems. -/

/-- A sample transcription segment. -/
def sampleSeg : SegmentDict :=
  { text := "hello"
    start_time := 0
    end_time := 2
    confidence := 9 / 10
    speaker_id := some "spk_0"
    language := some "en-US" }

/-- A sample successful payload of the opaque call. -/
def sampleData : JobData :=
  { segments := [sampleSeg]
    full_text := "hello"
    detected_language := "en-US"
    speaker_count := some 1 }

/-- `sampleData` after the worker's serialization step. -/
def serializedSampleData : JobData :=
  { segments := [serializeSegment sampleSeg]
    full_text := "hello"
    detected_language := "en-US"
    speaker_count := some 1 }

/-- The success dictionary the worker returns for `sampleData`. -/
def sampleSuccessJr : JobResult :=
  { success := true
    data := some serializedSampleData
    error := none
    error_type := none
    tb := none }

/-- The failure dictionary the worker returns when the inner deadline of
300 s fires (traceback text abbreviated). -/
def sampleTimeoutJr : JobResult :=
  { success := false
    data := none
    error := some (timeoutHandlerMessage 300)
    error_type := some "TimeoutError"
    tb := some "Traceback" }

/-! ### Helper lemmas (shared across the claim proofs). -/

/-- A poll loop whose future is never ready exhausts its whole window. -/
theorem pollLoop_none (ready : Nat → Bool) (h : ∀ j, ready j = false) :
    ∀ fuel k, pollLoop ready fuel k = none := by
  intro fuel
  induction fuel with
  | zero => intro k; rfl
  | succ n ih =>
      intro k
      simp only [pollLoop, h k, Bool.false_eq_true, if_false]
      exact ih (k + 1)

/-- A poll loop whose future is ready at the first check breaks at once. -/
theorem pollLoop_ready_at_zero (ready : Nat → Bool) (fuel : Nat)
    (h : ready 0 = true) (hf : 0 < fuel) : pollLoop ready fuel 0 = some 0 := by
  cases fuel with
  | zero => exact absurd hf (by omega)
  | succ n => simp [pollLoop, h]

/-- The poll loop body runs at most as often as the window has slots. -/
theorem pollIterations_le (ready : Nat → Bool) :
    ∀ fuel k, pollIterations ready fuel k ≤ fuel := by
  intro fuel
  induction fuel with
  | zero => intro k; exact Nat.le_refl 0
  | succ n ih =>
      intro k
      cases hk : ready k with
      | true => simp [pollIterations, hk]
      | false =>
          simp only [pollIterations, hk, Bool.false_eq_true, if_false]
          have := ih (k + 1)
          omega

/-- With a never-ready future the poll loop body runs exactly once per
slot of the window. -/
theorem pollIterations_of_never (ready : Nat → Bool) (h : ∀ j, ready j = false) :
    ∀ fuel k, pollIterations ready fuel k = fuel := by
  intro fuel
  induction fuel with
  | zero => intro k; rfl
  | succ n ih =>
      intro k
      simp only [pollIterations, h k, Bool.false_eq_true, if_false]
      rw [ih (k + 1)]
      omega

/-- The number of 100 ms slots in the outer window is the ceiling the
claim computes: `10 * (timeout + 10) = ⌈(timeout + 10) / 0.1⌉`. -/
theorem outer_window_slots (timeout : Nat) :
    ((10 * (timeout + 10) : Nat) : ℤ) = ⌈(((timeout : ℚ) + 10) / (1 / 10 : ℚ))⌉ := by
  have h : (((timeout : ℚ)) + 10) / (1 / 10 : ℚ) = ((10 * (timeout + 10) : Nat) : ℚ) := by
    push_cast
    ring
  rw [h, Int.ceil_natCast]

/-- A drain loop whose cache never empties exhausts its whole window. -/
theorem drainLoop_none (cacheEmpty : Nat → Bool) (h : ∀ j, cacheEmpty j = false) :
    ∀ fuel k, drainLoop cacheEmpty fuel k = none := by
  intro fuel
  induction fuel with
  | zero => intro k; rfl
  | succ n ih =>
      intro k
      simp only [drainLoop, h k, Bool.false_eq_true, if_false]
      exact ih (k + 1)

/-- The drain loop body runs at most as often as the window has slots. -/
theorem drainIterations_le (cacheEmpty : Nat → Bool) :
    ∀ fuel k, drainIterations cacheEmpty fuel k ≤ fuel := by
  intro fuel
  induction fuel with
  | zero => intro k; exact Nat.le_refl 0
  | succ n ih =>
      intro k
      cases hk : cacheEmpty k with
      | true => simp [drainIterations, hk]
      | false =>
          simp only [drainIterations, hk, Bool.false_eq_true, if_false]
          have := ih (k + 1)
          omega

/-- With a never-empty cache the drain loop body runs exactly once per
slot of the window. -/
theorem drainIterations_of_never (cacheEmpty : Nat → Bool)
    (h : ∀ j, cacheEmpty j = false) :
    ∀ fuel k, drainIterations cacheEmpty fuel k = fuel := by
  intro fuel
  induction fuel with
  | zero => intro k; rfl
  | succ n ih =>
      intro k
      simp only [drainIterations, h k, Bool.false_eq_true, if_false]
      rw [ih (k + 1)]
      omega

/-- The number of 0.5 s slots in the drain window is the ceiling the claim
computes: `2 * timeout = ⌈timeout / 0.5⌉`. -/
theorem drain_window_slots (timeout : Nat) :
    ((2 * timeout : Nat) : ℤ) = ⌈((timeout : ℚ) / (1 / 2 : ℚ))⌉ := by
  have h : ((timeout : ℚ)) / (1 / 2 : ℚ) = ((2 * timeout : Nat) : ℚ) := by
    push_cast
    ring
  rw [h, Int.ceil_natCast]

/-- Characterization of the CPU scan: it reports idle exactly when every
sample either hit an expected psutil error or measured at most 1 %. -/
theorem cpuScan_eq_true_iff (l : List (QueryRes ℚ)) :
    cpuScan l = true ↔
      ∀ r ∈ l, r = .expectedErr ∨ ∃ q, r = .ok q ∧ q ≤ 1 := by
  induction l with
  | nil => simp [cpuScan]
  | cons hd tl ih =>
      cases hd with
      | ok c =>
          by_cases hc : c > 1
          · simp only [cpuScan, hc, if_true]
            constructor
            · intro h; exact absurd h (by simp)
            · intro h
              rcases h (.ok c) (by simp) with h1 | ⟨q, hq, hq1⟩
              · exact absurd h1 (by simp)
              · injection hq with hcq
                subst hcq
                exact absurd hc (not_lt.mpr hq1)
          · simp only [cpuScan, hc, if_false, ih]
            constructor
            · intro h r hr
              rcases List.mem_cons.mp hr with rfl | hr
              · exact Or.inr ⟨c, rfl, le_of_not_lt hc⟩
              · exact h r hr
            · intro h r hr
              exact h r (List.mem_cons_of_mem _ hr)
      | expectedErr =>
          simp only [cpuScan, ih]
          constructor
          · intro h r hr
            rcases List.mem_cons.mp hr with rfl | hr
            · exact Or.inl rfl
            · exact h r hr
          · intro h r hr
            exact h r (List.mem_cons_of_mem _ hr)
      | unexpectedErr =>
          simp only [cpuScan]
          constructor
          · intro h; exact absurd h (by simp)
          · intro h
            rcases h .unexpectedErr (by simp) with h1 | ⟨q, hq, _⟩
            · exact absurd h1 (by simp)
            · exact absurd hq (by simp)

/-- The summation loop adds exactly the resident sizes whose query
succeeded: workers that exited mid-iteration contribute nothing. -/
theorem sumWorkerRss_eq (ws : List ChildProc) :
    sumWorkerRss ws = (ws.filterMap (fun w => w.rss.toOption)).sum := by
  suffices h : ∀ (l : List ChildProc) (acc : Nat),
      l.foldl (fun acc w => match w.rss with | .ok r => acc + r | .error _ => acc) acc
        = acc + (l.filterMap (fun w => w.rss.toOption)).sum by
    simpa [sumWorkerRss] using h ws 0
  intro l
  induction l with
  | nil => intro acc; simp
  | cons hd tl ih =>
      intro acc
      cases hrss : hd.rss with
      | ok r =>
          simp [List.foldl_cons, hrss, Except.toOption, ih, Nat.add_assoc]
      | error e =>
          simp [List.foldl_cons, hrss, Except.toOption, ih]

/-! ## Claim theorems -/

/-- C1: for every input — every outcome of the opaque transcription call
(success, `TimeoutError`, or any other `Exception`), every filesystem state
and every unlink behaviour — `transcribe_in_process` returns an `.ok`
`JobResult` dictionary: both `except` clauses together catch every
exception the opaque call can raise, so no exception propagates past the
function's boundary and the worker entry point is a total function from
job to job result from the coordinator's point of view. -/
theorem transcribe_in_process_total (o : ImplOutcome) (fs : FsState)
    (u : UnlinkBehavior) :
    ∃ jr : JobResult, (transcribe_in_process o fs u).result = .ok jr := by
  cases o <;> exact ⟨_, rfl⟩

/-- C3: every `JobResult` the worker returns populates exactly one variant
of the tagged union — either `success = true` with the data payload present
and no error keys, or `success = false` with `error`, `error_type` and
`traceback` present and no data payload; the `success` flag makes the two
shapes mutually exclusive, so no return value has both variants and none
has neither. -/
theorem jobresult_tagged_union (o : ImplOutcome) (fs : FsState)
    (u : UnlinkBehavior) (jr : JobResult)
    (h : (transcribe_in_process o fs u).result = .ok jr) :
    (jr.success = true ∧ jr.data.isSome = true ∧ jr.error = none
      ∧ jr.error_type = none ∧ jr.tb = none)
    ∨ (jr.success = false ∧ jr.data = none ∧ jr.error.isSome = true
      ∧ jr.error_type.isSome = true ∧ jr.tb.isSome = true) := by
  cases o with
  | ok r =>
      left
      simp only [transcribe_in_process, tryBody, handleTimeout, handleException,
        Except.ok.injEq] at h
      subst h
      simp
  | timeoutErr m t =>
      right
      simp only [transcribe_in_process, tryBody, handleTimeout, handleException,
        Except.ok.injEq] at h
      subst h
      simp
  | exc ty m t =>
      right
      simp only [transcribe_in_process, tryBody, handleTimeout, handleException,
        Except.ok.injEq] at h
      subst h
      simp

/-- C3 witness: the tagged-union shape at a concrete successful run. -/
theorem jobresult_tagged_union_witness :
    (sampleSuccessJr.success = true ∧ sampleSuccessJr.data.isSome = true
      ∧ sampleSuccessJr.error = none ∧ sampleSuccessJr.error_type = none
      ∧ sampleSuccessJr.tb = none)
    ∨ (sampleSuccessJr.success = false ∧ sampleSuccessJr.data = none
      ∧ sampleSuccessJr.error.isSome = true
      ∧ sampleSuccessJr.error_type.isSome = true
      ∧ sampleSuccessJr.tb.isSome = true) :=
  jobresult_tagged_union (.ok sampleData) ⟨true⟩ .ok sampleSuccessJr rfl

/-- C5: on every path of the worker entry point the temporary input file
is deleted before the job result is returned (the cleanup sits in the
`finally` block of `_sync_transcribe_impl`, which runs inside
`transcribe_in_process` on success, timeout and crash alike): when the
unlink succeeds the file is gone on exit; when the unlink raises, the
failure is logged as a warning and the returned result is unchanged — not
fatal; and the caller's redundant `unlink(missing_ok=True)` cleanup on the
already-deleted file is a no-op that raises nothing. -/
theorem worker_deletes_temp_file (o : ImplOutcome) (fs : FsState)
    (msg : String) :
    (transcribe_in_process o fs .ok).fs.fileExists = false
    ∧ (transcribe_in_process o fs (.raises msg)).result
        = (transcribe_in_process o fs .ok).result
    ∧ (fs.fileExists = true →
        (transcribe_in_process o fs (.raises msg)).warnedUnlink = true)
    ∧ (∀ u : UnlinkBehavior,
        callerCleanup (transcribe_in_process o fs .ok).fs u = (⟨false⟩, false)) := by
  obtain ⟨fe⟩ := fs
  cases fe
  · refine ⟨rfl, rfl, ?_, ?_⟩
    · intro h
      exact absurd h (by simp)
    · intro u
      cases u <;> rfl
  · refine ⟨rfl, rfl, fun _ => rfl, ?_⟩
    intro u
    cases u <;> rfl

/-- C5 witness: the cleanup at a concrete successful run on an existing
file, with the hypothesis of the logging conjunct discharged. -/
theorem worker_deletes_temp_file_witness :
    (transcribe_in_process (.ok sampleData) ⟨true⟩ .ok).fs.fileExists = false
    ∧ (transcribe_in_process (.ok sampleData) ⟨true⟩ (.raises "EPERM")).result
        = (transcribe_in_process (.ok sampleData) ⟨true⟩ .ok).result
    ∧ (transcribe_in_process (.ok sampleData) ⟨true⟩ (.raises "EPERM")).warnedUnlink
        = true
    ∧ callerCleanup (transcribe_in_process (.ok sampleData) ⟨true⟩ .ok).fs .ok
        = (⟨false⟩, false) :=
  ⟨(worker_deletes_temp_file (.ok sampleData) ⟨true⟩ "EPERM").1,
   (worker_deletes_temp_file (.ok sampleData) ⟨true⟩ "EPERM").2.1,
   (worker_deletes_temp_file (.ok sampleData) ⟨true⟩ "EPERM").2.2.1 rfl,
   (worker_deletes_temp_file (.ok sampleData) ⟨true⟩ "EPERM").2.2.2 .ok⟩

/-- C2: when the worker result never becomes ready, `process_audio` polls
at a fixed 100 ms interval over an outer window of the inner timeout plus
a 10-second safety margin and then surfaces a typed Timeout failure with
HTTP status 504 (via the raised `multiprocessing.TimeoutError`), waiting
no further — the job is abandoned; the poll-loop body runs exactly
`10 * (timeout + 10)` times in that case and never more than that for any
readiness schedule, and that slot count equals `⌈(timeout + 10) / 0.1⌉`. -/
theorem process_audio_outer_timeout (timeout : Nat) (jr : JobResult)
    (ready : Nat → Bool) (h : ∀ k, ready k = false) :
    process_audio timeout true ready jr
      = .error (.httpException 504
          ("Transcription timeout after " ++ toString timeout ++ "s"))
    ∧ pollIterations ready (10 * (timeout + 10)) 0 = 10 * (timeout + 10)
    ∧ (∀ r : Nat → Bool, ∀ k,
        pollIterations r (10 * (timeout + 10)) k ≤ 10 * (timeout + 10))
    ∧ ((10 * (timeout + 10) : Nat) : ℤ)
        = ⌈(((timeout : ℚ) + 10) / (1 / 10 : ℚ))⌉ := by
  refine ⟨?_, pollIterations_of_never ready h _ 0,
    fun r k => pollIterations_le r _ k, outer_window_slots timeout⟩
  have hp := pollLoop_none ready h (10 * (timeout + 10)) 0
  simp [process_audio, process_audio_try, hp]

/-- C2 witness: the outer timeout at inner timeout 0 with a never-ready
future. -/
theorem process_audio_outer_timeout_witness :
    process_audio 0 true (fun _ => false) sampleSuccessJr
      = .error (.httpException 504
          ("Transcription timeout after " ++ toString (0 : Nat) ++ "s"))
    ∧ pollIterations (fun _ => false) (10 * (0 + 10)) 0 = 10 * (0 + 10)
    ∧ (∀ r : Nat → Bool, ∀ k,
        pollIterations r (10 * (0 + 10)) k ≤ 10 * (0 + 10))
    ∧ ((10 * (0 + 10) : Nat) : ℤ)
        = ⌈((((0 : Nat) : ℚ) + 10) / (1 / 10 : ℚ))⌉ :=
  process_audio_outer_timeout 0 sampleSuccessJr (fun _ => false) (fun _ => rfl)

/-- C4 counterexample: at inner timeout 300 s, the inner-deadline failure
is surfaced as HTTP 504 with detail
`"Transcription timeout: Transcription exceeded timeout of 300 seconds"`,
while the outer timeout is surfaced as HTTP 504 with detail
`"Transcription timeout after 300s"` — two unequal caller-visible values,
so the caller can distinguish which deadline fired, refuting the claim
that the two are surfaced the same way. -/
theorem timeout_distinguishable_counterexample :
    process_audio 300 true (fun _ => true) sampleTimeoutJr
      = .error (.httpException 504
          ("Transcription timeout: " ++ timeoutHandlerMessage 300))
    ∧ process_audio 300 true (fun _ => false) sampleTimeoutJr
      = .error (.httpException 504
          ("Transcription timeout after " ++ toString (300 : Nat) ++ "s"))
    ∧ HttpError.httpException 504
          ("Transcription timeout: " ++ timeoutHandlerMessage 300)
        ≠ HttpError.httpException 504
          ("Transcription timeout after " ++ toString (300 : Nat) ++ "s") := by
  refine ⟨?_, ?_, ?_⟩
  · have hp := pollLoop_ready_at_zero (fun _ => true) (10 * (300 + 10)) rfl
      (by norm_num)
    simp [process_audio, process_audio_try, hp, sampleTimeoutJr]
  · have hp := pollLoop_none (fun _ => false) (fun _ => rfl) (10 * (300 + 10)) 0
    simp [process_audio, process_audio_try, hp]
  · decide

/-- C4 amended: if the opaque call exceeds the inner deadline, the alarm
handler raises a `TimeoutError` that the worker converts to a Failure with
`error_type = "TimeoutError"`, and the coordinator surfaces both this
inner timeout and its own outer timeout with the same HTTP status 504 —
though with different detail messages, so a caller inspecting the detail
can tell the deadlines apart. -/
theorem timeout_surfaced_as_504 (timeout : Nat) (tr : String) (fs : FsState)
    (u : UnlinkBehavior) (readyI readyO : Nat → Bool)
    (hI : readyI 0 = true) (hO : ∀ k, readyO k = false) :
    ∃ jr : JobResult,
      (transcribe_in_process (alarmFires timeout tr) fs u).result = .ok jr
      ∧ jr.success = false
      ∧ jr.error_type = some "TimeoutError"
      ∧ process_audio timeout true readyI jr
          = .error (.httpException 504
              ("Transcription timeout: " ++ timeoutHandlerMessage timeout))
      ∧ process_audio timeout true readyO jr
          = .error (.httpException 504
              ("Transcription timeout after " ++ toString timeout ++ "s")) := by
  refine ⟨{ success := false, data := none
            error := some (timeoutHandlerMessage timeout)
            error_type := some "TimeoutError", tb := some tr },
    rfl, rfl, rfl, ?_, ?_⟩
  · have hp := pollLoop_ready_at_zero readyI (10 * (timeout + 10)) hI (by omega)
    simp [process_audio, process_audio_try, hp]
  · have hp := pollLoop_none readyO hO (10 * (timeout + 10)) 0
    simp [process_audio, process_audio_try, hp]

/-- C4 witness: the amended statement at inner timeout 300 s, a future
that is ready at the first poll for the inner case and one that is never
ready for the outer case. -/
theorem timeout_surfaced_as_504_witness :
    ∃ jr : JobResult,
      (transcribe_in_process (alarmFires 300 "Traceback") ⟨true⟩ .ok).result
        = .ok jr
      ∧ jr.success = false
      ∧ jr.error_type = some "TimeoutError"
      ∧ process_audio 300 true (fun _ => true) jr
          = .error (.httpException 504
              ("Transcription timeout: " ++ timeoutHandlerMessage 300))
      ∧ process_audio 300 true (fun _ => false) jr
          = .error (.httpException 504
              ("Transcription timeout after " ++ toString (300 : Nat) ++ "s")) :=
  timeout_surfaced_as_504 300 "Traceback" ⟨true⟩ .ok (fun _ => true)
    (fun _ => false) rfl (fun _ => rfl)

/-- C10: every successful `process_audio` call returns a response whose
`translated_text` equals its `original_text`: both are set from the same
`full_text` value of the worker payload, so the service never returns a
distinct translation. -/
theorem translated_equals_original (timeout : Nat) (fe : Bool)
    (ready : Nat → Bool) (jr : JobResult) (resp : TranscriptionResponse)
    (h : process_audio timeout fe ready jr = .ok resp) :
    resp.translated_text = resp.original_text
    ∧ ∃ d, jr.data = some d ∧ resp = buildResponse d
        ∧ resp.original_text = d.full_text
        ∧ resp.translated_text = d.full_text := by
  cases fe with
  | false => simp [process_audio] at h
  | true =>
      rw [process_audio] at h
      rw [if_neg (by simp)] at h
      cases hm : process_audio_try timeout ready jr with
      | error e =>
          rw [hm] at h
          cases e <;> exact absurd h (by simp)
      | ok r =>
          rw [hm] at h
          have hr : r = resp := by
            injection h
          subst hr
          rw [process_audio_try] at hm
          cases hp : pollLoop ready (10 * (timeout + 10)) 0 with
          | none => rw [hp] at hm; exact absurd hm (by simp)
          | some k =>
              rw [hp] at hm
              cases hs : jr.success with
              | false =>
                  rw [hs] at hm
                  simp only [Bool.false_eq_true, if_false] at hm
                  split at hm <;> exact absurd hm (by simp)
              | true =>
                  rw [hs] at hm
                  simp only [if_true] at hm
                  cases hd : jr.data with
                  | none => rw [hd] at hm; exact absurd hm (by simp)
                  | some d =>
                      rw [hd] at hm
                      have hrd : buildResponse d = r := by
                        injection hm
                      subst hrd
                      exact ⟨rfl, d, rfl, rfl, rfl, rfl⟩

/-- C10 witness: the equality at a concrete successful run. -/
theorem translated_equals_original_witness :
    (buildResponse serializedSampleData).translated_text
      = (buildResponse serializedSampleData).original_text
    ∧ ∃ d, sampleSuccessJr.data = some d
        ∧ buildResponse serializedSampleData = buildResponse d
        ∧ (buildResponse serializedSampleData).original_text = d.full_text
        ∧ (buildResponse serializedSampleData).translated_text = d.full_text :=
  translated_equals_original 0 true (fun _ => true) sampleSuccessJr
    (buildResponse serializedSampleData) rfl

/-- C6: `get_aggregate_memory_usage` returns a plain snapshot for every
state of the process table — its codomain is `MemSnapshot`, not an
exception: when the OS query on the parent fails the all-zero snapshot is
returned; otherwise the worker sum counts exactly the workers whose memory
query succeeded (those exiting mid-iteration are skipped) and the total is
parent plus that sum; and with zero live workers the snapshot carries
`worker_count = 0`, `workers_rss_bytes = 0` and, the division being
guarded, `per_worker_avg_bytes = 0` rather than an error. -/
theorem aggregate_memory_total_and_guarded (parentRss : Except PsErr Nat)
    (enumChildren : Except PsErr (List ChildProc)) :
    (∀ e, parentRss = .error e →
        get_aggregate_memory_usage parentRss enumChildren = zeroSnapshot)
    ∧ (∀ p, parentRss = .ok p →
        (get_aggregate_memory_usage parentRss enumChildren).parent_rss_bytes = p
        ∧ (get_aggregate_memory_usage parentRss enumChildren).workers_rss_bytes
            = ((get_worker_processes enumChildren).filterMap
                (fun w => w.rss.toOption)).sum
        ∧ (get_aggregate_memory_usage parentRss enumChildren).total_rss_bytes
            = p + ((get_worker_processes enumChildren).filterMap
                (fun w => w.rss.toOption)).sum
        ∧ (get_aggregate_memory_usage parentRss enumChildren).worker_count
            = (get_worker_processes enumChildren).length)
    ∧ (∀ p, parentRss = .ok p → get_worker_processes enumChildren = [] →
        get_aggregate_memory_usage parentRss enumChildren
          = { total_rss_bytes := p, parent_rss_bytes := p
              workers_rss_bytes := 0, worker_count := 0
              per_worker_avg_bytes := 0 }) := by
  refine ⟨?_, ?_, ?_⟩
  · intro e he
    subst he
    rfl
  · intro p hp
    subst hp
    exact ⟨rfl, sumWorkerRss_eq _, congrArg (p + ·) (sumWorkerRss_eq _), rfl⟩
  · intro p hp hw
    subst hp
    simp [get_aggregate_memory_usage, hw, sumWorkerRss]

/-- C6 witness: the zero snapshot on an OS failure, and the guarded zero
average with zero live workers. -/
theorem aggregate_memory_witness :
    get_aggregate_memory_usage (.error PsErr.accessDenied) (.ok []) = zeroSnapshot
    ∧ get_aggregate_memory_usage (.ok 7) (.ok [])
        = { total_rss_bytes := 7, parent_rss_bytes := 7
            workers_rss_bytes := 0, worker_count := 0
            per_worker_avg_bytes := 0 } :=
  ⟨(aggregate_memory_total_and_guarded (.error .accessDenied) (.ok [])).1
      .accessDenied rfl,
   (aggregate_memory_total_and_guarded (.ok 7) (.ok [])).2.2 7 rfl rfl⟩

/-- C7: `is_pool_idle` answers true exactly when all checks pass — the
result-future cache is empty, the task queue is empty, neither
inter-process channel poll reports data in transit (a locally caught
`OSError`/`AttributeError` counts as nothing in transit), and every worker
CPU sample either hit a locally caught psutil error or measured at most
the 1 % threshold; whenever any single check indicates work, or any check
raises an exception the code does not catch locally, the function returns
false. -/
theorem is_pool_idle_iff (cacheSize : Nat) (tq : Bool)
    (ip op : QueryRes Bool) (cpus : List (QueryRes ℚ)) :
    is_pool_idle cacheSize tq ip op cpus = true ↔
      cacheSize = 0 ∧ tq = true
      ∧ (ip = .ok false ∨ ip = .expectedErr)
      ∧ (op = .ok false ∨ op = .expectedErr)
      ∧ (∀ r ∈ cpus, r = .expectedErr ∨ ∃ q, r = .ok q ∧ q ≤ 1) := by
  cases cacheSize with
  | succ n => simp [is_pool_idle]
  | zero =>
      cases tq with
      | false => simp [is_pool_idle]
      | true =>
          rcases ip with b | _ | _
          · cases b
            · rcases op with b2 | _ | _
              · cases b2
                · simp [is_pool_idle, cpuScan_eq_true_iff]
                · simp [is_pool_idle]
              · simp [is_pool_idle, cpuScan_eq_true_iff]
              · simp [is_pool_idle]
            · simp [is_pool_idle]
          · rcases op with b2 | _ | _
            · cases b2
              · simp [is_pool_idle, cpuScan_eq_true_iff]
              · simp [is_pool_idle]
            · simp [is_pool_idle, cpuScan_eq_true_iff]
            · simp [is_pool_idle]
          · simp [is_pool_idle]

/-- C7 witness: idle at a concrete state where every check passes,
including a caught channel-poll error and a 0.5 % CPU sample. -/
theorem is_pool_idle_witness :
    is_pool_idle 0 true (.ok false) .expectedErr [.ok (1 / 2), .expectedErr]
      = true :=
  (is_pool_idle_iff 0 true (.ok false) .expectedErr
      [.ok (1 / 2), .expectedErr]).mpr
    ⟨rfl, rfl, Or.inl rfl, Or.inr rfl, by
      intro r hr
      simp only [List.mem_cons, List.not_mem_nil, or_false] at hr
      rcases hr with rfl | rfl
      · exact Or.inr ⟨1 / 2, rfl, by norm_num⟩
      · exact Or.inl rfl⟩

/-- C8: `shutdown` is two-phase and bounded: after intake stops, the drain
loop polls the pending-work cache at a fixed 0.5 s interval for at most
`2 * timeout` body executions — and `2 * timeout = ⌈timeout / 0.5⌉`; if
the cache never empties within the window the loop exhausts it and the
workers are forcibly terminated and reaped; if the cache empties in time
the shutdown is graceful; and when an exception interrupts the shutdown it
is caught and handled by forced termination (whose own failure is only
logged), so control returns to the caller on every path. -/
theorem shutdown_two_phase_bounded (timeout : Nat)
    (closeRaises termRaises : Bool) (cacheEmpty : Nat → Bool) :
    (∀ fuel k, drainIterations cacheEmpty fuel k ≤ fuel)
    ∧ ((2 * timeout : Nat) : ℤ) = ⌈((timeout : ℚ) / (1 / 2 : ℚ))⌉
    ∧ (closeRaises = false → (∀ k, cacheEmpty k = false) →
        shutdown timeout closeRaises cacheEmpty termRaises = .forced
        ∧ drainIterations cacheEmpty (2 * timeout) 0 = 2 * timeout)
    ∧ (closeRaises = false → ∀ k,
        drainLoop cacheEmpty (2 * timeout) 0 = some k →
        shutdown timeout closeRaises cacheEmpty termRaises = .graceful)
    ∧ (closeRaises = true →
        shutdown timeout closeRaises cacheEmpty termRaises
          = if termRaises then .terminateFailed else .forcedAfterError) := by
  refine ⟨drainIterations_le cacheEmpty, drain_window_slots timeout, ?_, ?_, ?_⟩
  · intro hc hnever
    subst hc
    exact ⟨by simp [shutdown, drainLoop_none cacheEmpty hnever],
      drainIterations_of_never cacheEmpty hnever _ 0⟩
  · intro hc k hk
    subst hc
    simp [shutdown, hk]
  · intro hc
    subst hc
    simp [shutdown]

/-- C8 witness: with a 1 s budget and a cache that never empties the
shutdown is forced after exactly `2 * 1` drain polls, and an exception
during shutdown still ends in a handled forced termination. -/
theorem shutdown_two_phase_bounded_witness :
    shutdown 1 false (fun _ => false) false = .forced
    ∧ drainIterations (fun _ => false) (2 * 1) 0 = 2 * 1
    ∧ shutdown 1 true (fun _ => false) false = .forcedAfterError :=
  ⟨((shutdown_two_phase_bounded 1 false false (fun _ => false)).2.2.1 rfl
      (fun _ => rfl)).1,
   ((shutdown_two_phase_bounded 1 false false (fun _ => false)).2.2.1 rfl
      (fun _ => rfl)).2,
   by
     have h := (shutdown_two_phase_bounded 1 true false (fun _ => false)).2.2.2.2 rfl
     simpa using h⟩

/-- C9: one iteration of the metrics-sampler loop body never terminates
the loop with an ordinary error: it never produces an `errored` exit; when
the process service has not been created it skips collection and proceeds
to the next interval; an exception during a collection is caught and the
loop proceeds; and the cooperative cancellation signal raised during
collection is re-raised so the iteration exits with `cancelled`. -/
theorem collector_iteration_never_errors (svc : Bool) (c : CollectOutcome)
    (cs : Bool) :
    (∀ m, collect_process_memory_metrics_iteration svc c cs ≠ .errored m)
    ∧ (svc = false → cs = false →
        collect_process_memory_metrics_iteration svc c cs = .next)
    ∧ (∀ m, c = .raisesExc m → cs = false →
        collect_process_memory_metrics_iteration svc c cs = .next)
    ∧ (c = .raisesCancelled → svc = true →
        collect_process_memory_metrics_iteration svc c cs = .cancelled) := by
  cases svc <;> cases c <;> cases cs <;>
    simp [collect_process_memory_metrics_iteration]

/-- C9 witness: a failing collection at a live service leads to the next
interval, not loop exit. -/
theorem collector_iteration_witness :
    collect_process_memory_metrics_iteration true (.raisesExc "boom") false
      = .next :=
  (collector_iteration_never_errors true (.raisesExc "boom") false).2.2.1
    "boom" rfl rfl

end STT
